import Mathlib

/-!
Verification of the Midnite Solar Home Assistant integration
(custom_components/midnite).  The Python modules are shallowly embedded:

* `const.py`   — `REGISTER_MAP` and the AUX function tables are copied as data.
* `coordinator.py` — its module-level `REGISTER_GROUPS`, the snapshot shape
  `{"data": {group: {address: value}}, "availability": {address: bool}}`,
  `_read_register_group`, `_async_update_data`, `get_register_value` and
  `get_32bit_value`.  Python dicts become association lists (`List (k × v)`,
  `dict.get` is `List.lookup`); a register read outcome is an oracle
  `Nat → Option Nat` (`none` = the hub returned its failure sentinel).
* `hub.py`     — `read_holding_registers` with its five-attempt retry loop,
  including the nested `self.connect()` / `self.disconnect()` calls made while
  `self._lock` (a non-reentrant `threading.Lock`) is already held; acquiring
  that lock again from the same thread blocks forever, which the model records
  as the outcome `ReadResult.deadlock`.
* `sensor.py`  — the battery / PV current decoding and the temperature
  validator (floats are modelled as exact rationals).
* `select.py`  — the AUX 1 / AUX 2 selectors (current option and the
  composite write of register 4165 followed by the EEPROM-commit flag).
* `text.py`    — the host-name write sequence.
-/

namespace Midnite

/-- `const.py` `REGISTER_MAP`: symbolic register names to 1-indexed addresses. -/
def REGISTER_MAP : List (String × Nat) := [
  ("UNIT_ID", 4101),
  ("UNIT_SW_DATE_RO", 4102),
  ("UNIT_SW_DATE_MONTH_DAY", 4103),
  ("INFO_FLAGS_BITS3", 4104),
  ("MAC_ADDRESS_PART_1", 4106),
  ("MAC_ADDRESS_PART_2", 4107),
  ("MAC_ADDRESS_PART_3", 4108),
  ("STATUSROLL", 4113),
  ("RESTART_TIME_MS", 4114),
  ("MATCH_POINT_SHADOW", 4124),
  ("DISP_AVG_VBATT", 4115),
  ("DISP_AVG_VPV", 4116),
  ("IBATT_DISPLAY_S", 4117),
  ("KW_HOURS", 4118),
  ("WATTS", 4119),
  ("COMBO_CHARGE_STAGE", 4120),
  ("PV_INPUT_CURRENT", 4121),
  ("VOC_LAST_MEASURED", 4122),
  ("HIGHEST_VINPUT_LOG", 4123),
  ("AMP_HOURS_DAILY", 4125),
  ("LIFETIME_KW_HOURS_1", 4126),
  ("LIFETIME_AMP_HOURS_1", 4128),
  ("BATT_TEMPERATURE", 4132),
  ("FET_TEMPERATURE", 4133),
  ("PCB_TEMPERATURE", 4134),
  ("NITE_MINUTES_NO_PWR", 4135),
  ("MINUTE_LOG_INTERVAL_SEC", 4136),
  ("MODBUS_PORT_REGISTER", 4137),
  ("FLOAT_TIME_TODAY_SEC", 4138),
  ("ABSORB_TIME", 4139),
  ("REASON_FOR_RESET", 4142),
  ("EQUALIZE_TIME", 4143),
  ("REASON_FOR_RESTING", 4275),
  ("MPPT_MODE", 4164),
  ("AUX_1_AND_2_FUNCTION", 4165),
  ("VARIMAX", 4180),
  ("CLASSIC_MODBUS_ADDR_EEPROM", 4326),
  ("MAX_BATTERY_TEMP_COMP_VOLTAGE", 4155),
  ("MIN_BATTERY_TEMP_COMP_VOLTAGE", 4156),
  ("BATTERY_TEMP_COMP_VALUE", 4157),
  ("EQUALIZE_RETRY_DAYS", 4159),
  ("AUX1_VOLTS_LO_ABS", 4166),
  ("AUX1_DELAY_T_MS", 4167),
  ("AUX1_HOLD_T_MS", 4168),
  ("AUX2_PWM_VWIDTH", 4169),
  ("AUX1_VOLTS_HI_ABS", 4172),
  ("AUX2_VOLTS_HI_ABS", 4173),
  ("AUX1_VOLTS_LO_REL", 4174),
  ("AUX1_VOLTS_HI_REL", 4175),
  ("AUX2_VOLTS_LO_REL", 4176),
  ("AUX2_VOLTS_HI_REL", 4177),
  ("AUX1_VOLTS_LO_PV_ABS", 4178),
  ("AUX1_VOLTS_HI_PV_ABS", 4179),
  ("AUX2_VOLTS_HI_PV_ABS", 4181),
  ("IP_SETTINGS_FLAGS", 20481),
  ("IP_ADDRESS_LSB_1", 20482),
  ("IP_ADDRESS_LSB_2", 20483),
  ("GATEWAY_ADDRESS_LSB_1", 20484),
  ("GATEWAY_ADDRESS_LSB_2", 20485),
  ("SUBNET_MASK_LSB_1", 20486),
  ("SUBNET_MASK_LSB_2", 20487),
  ("DNS_1_LSB_1", 20488),
  ("DNS_1_LSB_2", 20489),
  ("DNS_2_LSB_1", 20490),
  ("DNS_2_LSB_2", 20491),
  ("ABSORB_SETPOINT_VOLTAGE", 4149),
  ("FLOAT_VOLTAGE_SETPOINT", 4150),
  ("EQUALIZE_VOLTAGE_SETPOINT", 4151),
  ("BATTERY_OUTPUT_CURRENT_LIMIT", 4148),
  ("SLIDING_CURRENT_LIMIT", 4152),
  ("MIN_ABSORB_TIME", 4153),
  ("ABSORB_TIME_EEPROM", 4154),
  ("EQUALIZE_TIME_EEPROM", 4162),
  ("EQUALIZE_INTERVAL_DAYS_EEPROM", 4163),
  ("FORCE_FLAG_BITS", 4160),
  ("UNIT_NAME_0", 4210),
  ("UNIT_NAME_1", 4211),
  ("UNIT_NAME_2", 4212),
  ("UNIT_NAME_3", 4213),
  ("DEVICE_ID_LSW", 4111),
  ("DEVICE_ID_MSW", 4112)]

/-- `REGISTER_MAP["KEY"]` (every key used below is present, so the default is
never taken). -/
def regAddr (key : String) : Nat :=
  (REGISTER_MAP.lookup key).getD 0

/-- `coordinator.py` module-level `REGISTER_GROUPS` (the table the coordinator
actually iterates; note it has no "aux_settings" group, unlike the unused
table of the same name in `const.py`). -/
def REGISTER_GROUPS : List (String × List Nat) := [
  ("device_info", [
    regAddr "UNIT_ID",
    regAddr "UNIT_SW_DATE_RO",
    regAddr "UNIT_SW_DATE_MONTH_DAY",
    regAddr "DEVICE_ID_LSW",
    regAddr "DEVICE_ID_MSW",
    regAddr "UNIT_NAME_0",
    regAddr "UNIT_NAME_1",
    regAddr "UNIT_NAME_2",
    regAddr "UNIT_NAME_3",
    regAddr "MAC_ADDRESS_PART_1",
    regAddr "MAC_ADDRESS_PART_2",
    regAddr "MAC_ADDRESS_PART_3"]),
  ("status", [
    regAddr "DISP_AVG_VBATT",
    regAddr "DISP_AVG_VPV",
    regAddr "IBATT_DISPLAY_S",
    regAddr "WATTS",
    regAddr "COMBO_CHARGE_STAGE",
    regAddr "PV_INPUT_CURRENT",
    regAddr "VOC_LAST_MEASURED",
    regAddr "STATUSROLL",
    regAddr "KW_HOURS",
    regAddr "HIGHEST_VINPUT_LOG",
    regAddr "RESTART_TIME_MS",
    regAddr "MATCH_POINT_SHADOW"]),
  ("temperatures", [
    regAddr "BATT_TEMPERATURE",
    regAddr "FET_TEMPERATURE",
    regAddr "PCB_TEMPERATURE"]),
  ("energy", [
    regAddr "AMP_HOURS_DAILY",
    regAddr "LIFETIME_KW_HOURS_1",
    regAddr "LIFETIME_KW_HOURS_1" + 1,
    regAddr "LIFETIME_AMP_HOURS_1",
    regAddr "LIFETIME_AMP_HOURS_1" + 1]),
  ("time_settings", [
    regAddr "FLOAT_TIME_TODAY_SEC",
    regAddr "ABSORB_TIME",
    regAddr "EQUALIZE_TIME",
    regAddr "MIN_ABSORB_TIME"]),
  ("settings", [
    regAddr "MPPT_MODE",
    regAddr "MODBUS_PORT_REGISTER",
    regAddr "MINUTE_LOG_INTERVAL_SEC",
    regAddr "SLIDING_CURRENT_LIMIT"]),
  ("network", [
    regAddr "IP_ADDRESS_LSB_1",
    regAddr "IP_ADDRESS_LSB_2",
    regAddr "GATEWAY_ADDRESS_LSB_1",
    regAddr "GATEWAY_ADDRESS_LSB_2",
    regAddr "SUBNET_MASK_LSB_1",
    regAddr "SUBNET_MASK_LSB_2",
    regAddr "DNS_1_LSB_1",
    regAddr "DNS_1_LSB_2",
    regAddr "DNS_2_LSB_1",
    regAddr "DNS_2_LSB_2"]),
  ("diagnostics", [
    regAddr "REASON_FOR_RESTING"]),
  ("setpoints", [
    regAddr "ABSORB_SETPOINT_VOLTAGE",
    regAddr "FLOAT_VOLTAGE_SETPOINT",
    regAddr "EQUALIZE_VOLTAGE_SETPOINT",
    regAddr "BATTERY_OUTPUT_CURRENT_LIMIT"]),
  ("eeprom_settings", [
    regAddr "ABSORB_TIME_EEPROM",
    regAddr "EQUALIZE_TIME_EEPROM",
    regAddr "EQUALIZE_INTERVAL_DAYS_EEPROM",
    regAddr "CLASSIC_MODBUS_ADDR_EEPROM",
    regAddr "MAX_BATTERY_TEMP_COMP_VOLTAGE",
    regAddr "MIN_BATTERY_TEMP_COMP_VOLTAGE",
    regAddr "BATTERY_TEMP_COMP_VALUE",
    regAddr "EQUALIZE_RETRY_DAYS"])]

/-- One published poll result, the dict
`{"data": {group: {address: value}}, "availability": {str(address): bool}}`
returned by `_async_update_data`.  The coordinator's `self.data` is
`Option Snapshot` (`none` until the first successful cycle). -/
structure Snapshot where
  data : List (String × List (Nat × Nat))
  availability : List (String × Bool)
deriving DecidableEq, Repr

/-- The scan of `get_register_value` over `REGISTER_GROUPS`
(`coordinator.py` lines 274–277): the first group that contains the address
and is a key of the snapshot's data decides the answer via `dict.get`. -/
def get_register_value_scan (data : List (String × List (Nat × Nat)))
    (address : Nat) : List (String × List Nat) → Option Nat
  | [] => none
  | (group_name, registers) :: rest =>
    if address ∈ registers ∧ (data.lookup group_name).isSome then
      ((data.lookup group_name).getD []).lookup address
    else
      get_register_value_scan data address rest

/-- `MidniteSolarUpdateCoordinator.get_register_value`. -/
def get_register_value (snap : Option Snapshot) (address : Nat) : Option Nat :=
  match snap with
  | none => none
  | some s => get_register_value_scan s.data address REGISTER_GROUPS

/-- The scan of `get_32bit_value` over `REGISTER_GROUPS`
(`coordinator.py` lines 285–292). -/
def get_32bit_value_scan (data : List (String × List (Nat × Nat)))
    (low_address high_address : Nat) : List (String × List Nat) → Option Nat
  | [] => none
  | (group_name, registers) :: rest =>
    if low_address ∈ registers ∧ high_address ∈ registers then
      match data.lookup group_name with
      | some d =>
        match d.lookup low_address with
        | some low_value =>
          match d.lookup high_address with
          | some high_value => some ((high_value <<< 16) ||| low_value)
          | none => get_32bit_value_scan data low_address high_address rest
        | none => get_32bit_value_scan data low_address high_address rest
      | none => get_32bit_value_scan data low_address high_address rest
    else
      get_32bit_value_scan data low_address high_address rest

/-- `MidniteSolarUpdateCoordinator.get_32bit_value`. -/
def get_32bit_value (snap : Option Snapshot) (low_address high_address : Nat) :
    Option Nat :=
  match snap with
  | none => none
  | some s => get_32bit_value_scan s.data low_address high_address REGISTER_GROUPS

theorem lookup_mem {α β : Type} [BEq α] [LawfulBEq α] {l : List (α × β)}
    {k : α} {v : β} (h : l.lookup k = some v) : (k, v) ∈ l := by
  obtain ⟨l1, l2, rfl, hne⟩ := List.lookup_eq_some_iff.mp h
  exact List.mem_append.mpr (Or.inr (List.mem_cons_self _ _))

theorem get_register_value_scan_of_absent
    (data : List (String × List (Nat × Nat))) (address : Nat)
    (habs : ∀ g d, (g, d) ∈ data → d.lookup address = none) :
    ∀ groups, get_register_value_scan data address groups = none := by
  intro groups
  induction groups with
  | nil => rfl
  | cons p rest ih =>
    obtain ⟨g, registers⟩ := p
    rw [get_register_value_scan]
    split
    · next hcond =>
      obtain ⟨d, hd⟩ := Option.isSome_iff_exists.mp hcond.2
      rw [hd]
      exact habs g d (lookup_mem hd)
    · exact ih

theorem get_32bit_value_scan_of_absent
    (data : List (String × List (Nat × Nat))) (low_address high_address : Nat)
    (habs : ∀ g d, (g, d) ∈ data → d.lookup low_address = none) :
    ∀ groups, get_32bit_value_scan data low_address high_address groups = none := by
  intro groups
  induction groups with
  | nil => rfl
  | cons p rest ih =>
    obtain ⟨g, registers⟩ := p
    rw [get_32bit_value_scan]
    split
    · split
      · next d hd =>
        split
        · next low_value hlow =>
          rw [habs g d (lookup_mem hd)] at hlow
          exact absurd hlow (by simp)
        · exact ih
      · exact ih
    · exact ih

theorem get_32bit_value_scan_some
    (data : List (String × List (Nat × Nat))) (low_address high_address v : Nat) :
    ∀ groups, get_32bit_value_scan data low_address high_address groups = some v →
      ∃ g d low_value high_value, data.lookup g = some d ∧
        d.lookup low_address = some low_value ∧
        d.lookup high_address = some high_value ∧
        v = (high_value <<< 16) ||| low_value := by
  intro groups
  induction groups with
  | nil => intro h; exact absurd h (by simp [get_32bit_value_scan])
  | cons p rest ih =>
    obtain ⟨g, registers⟩ := p
    intro h
    rw [get_32bit_value_scan] at h
    revert h
    split
    · split
      · next d hd =>
        split
        · next low_value hlow =>
          split
          · next high_value hhigh =>
            intro h
            refine ⟨g, d, low_value, high_value, hd, hlow, hhigh, ?_⟩
            injection h with h
            exact h.symm
          · exact ih
        · exact ih
      · exact ih
    · exact ih

/-- Claim C1: a register address absent from the snapshot's data (its group
missing, or the address missing from its group's mapping) makes
`get_register_value` and `get_32bit_value` return `none`, never a stale or
default number; and `get_32bit_value` returns a value only when both
registers of the pair are present, in which case it returns
`(high_value <<< 16) ||| low_value`. -/
theorem get_value_absent_returns_none (snap : Snapshot)
    (address low_address high_address : Nat)
    (haddr : ∀ g d, (g, d) ∈ snap.data → d.lookup address = none)
    (hlow : ∀ g d, (g, d) ∈ snap.data → d.lookup low_address = none) :
    get_register_value (some snap) address = none ∧
    get_32bit_value (some snap) low_address high_address = none ∧
    (∀ s2 v, get_32bit_value (some s2) low_address high_address = some v →
      ∃ g d low_value high_value, s2.data.lookup g = some d ∧
        d.lookup low_address = some low_value ∧
        d.lookup high_address = some high_value ∧
        v = (high_value <<< 16) ||| low_value) := by
  refine ⟨?_, ?_, ?_⟩
  · exact get_register_value_scan_of_absent snap.data address haddr _
  · exact get_32bit_value_scan_of_absent snap.data low_address high_address hlow _
  · intro s2 v h
    exact get_32bit_value_scan_some s2.data low_address high_address v _ h

/-- Witness for C1 at a concrete snapshot holding only the battery-voltage
register 4115: the battery-current register 4117 and the lifetime-kWh pair
4126/4127 all read back as unknown. -/
theorem get_value_absent_witness :
    get_register_value (some ⟨[("status", [(4115, 123)])], []⟩) 4117 = none ∧
    get_32bit_value (some ⟨[("status", [(4115, 123)])], []⟩) 4126 4127 = none := by
  have habs : ∀ g d, (g, d) ∈ [("status", [(4115, 123)])] →
      List.lookup 4117 d = none := by
    intro g d hm
    rw [List.mem_singleton] at hm
    injection hm with hg hd
    rw [hd]
    rfl
  have hlow : ∀ g d, (g, d) ∈ [("status", [(4115, 123)])] →
      List.lookup 4126 d = none := by
    intro g d hm
    rw [List.mem_singleton] at hm
    injection hm with hg hd
    rw [hd]
    rfl
  have h := get_value_absent_returns_none ⟨[("status", [(4115, 123)])], []⟩
    4117 4126 4127 habs hlow
  exact ⟨h.1, h.2.1⟩

/-! ## Hub transport model (`hub.py`)

`MidniteHub` guards every operation with `self._lock = threading.Lock()`, a
NON-reentrant mutex.  `read_holding_registers` takes the lock once and then,
inside the retry loop, calls `self.connect()` (when the socket is found
closed) and `self.disconnect()` (on decode-style exceptions) — both of which
begin with `with self._lock:`.  A second acquisition by the owning thread
blocks forever; the model returns `none` from `hub_connect` / `hub_disconnect`
to record that, and the loop's outcome is then `ReadResult.deadlock`.

The environment of one call is an oracle `steps : Nat → AttemptStep` giving,
for each attempt index, whether `self._client.is_socket_open()` is true at the
top of the attempt and how `self._client.read_holding_registers` behaves. -/

/-- How one `self._client.read_holding_registers` call turns out when the
attempt reaches it. -/
inductive AttemptFailure where
  /-- `result` is `None` or `result.isError()`: the loop logs and retries with
  no sleep. -/
  | errorResponse
  /-- An exception whose text contains "Unable to decode request" or
  "byte_count": the handler calls `self.disconnect()` before any backoff. -/
  | exnDecode
  /-- Any other caught exception: the handler sleeps the backoff and retries. -/
  | exnOther
deriving DecidableEq, Repr

inductive AttemptEvent where
  | success (registers : List Nat)
  | fail (f : AttemptFailure)
deriving DecidableEq, Repr

structure AttemptStep where
  socketOpen : Bool
  event : AttemptEvent
deriving DecidableEq, Repr

inductive ReadResult where
  /-- The pymodbus response object with `result.registers`. -/
  | ok (registers : List Nat)
  /-- `return None` after `max_retries` failed attempts. -/
  | sentinel
  /-- The thread blocked forever re-acquiring the non-reentrant `self._lock`. -/
  | deadlock
deriving DecidableEq, Repr

/-- One call's observable behaviour: its outcome, the `time.sleep` durations
performed in order (seconds, as exact rationals), and the
`(address - 1, count)` argument of each wire read actually issued. -/
structure ReadTrace where
  result : ReadResult
  delays : List ℚ
  reads : List (Int × Nat)
deriving DecidableEq, Repr

/-- `MidniteHub.connect` body: `with self._lock: return self._client.connect()`.
Called with the lock already held by the same thread it never returns. -/
def hub_connect (lockHeld : Bool) : Option Bool :=
  if lockHeld then none else some true

/-- `MidniteHub.disconnect` body: `with self._lock: ...close()...`.  Same
non-reentrancy as `hub_connect`. -/
def hub_disconnect (lockHeld : Bool) : Option Unit :=
  if lockHeld then none else some ()

/-- The `for attempt in range(max_retries)` loop of
`MidniteHub.read_holding_registers`, with `remaining` attempts left (so the
current Python `attempt` is `maxRetries - remaining`).  The lock is held for
the whole loop, hence `hub_connect true` / `hub_disconnect true` on the
reconnect and protocol-error paths. -/
def readLoopAux (address : Nat) (count : Nat) (steps : Nat → AttemptStep)
    (maxRetries : Nat) : Nat → ReadTrace
  | 0 => ⟨ReadResult.sentinel, [], []⟩
  | remaining + 1 =>
    let attempt := maxRetries - (remaining + 1)
    let s := steps attempt
    let wire : Int × Nat := ((address : Int) - 1, count)
    let body : List ℚ → ReadTrace := fun pre =>
      match s.event with
      | AttemptEvent.success registers => ⟨ReadResult.ok registers, pre, [wire]⟩
      | AttemptEvent.fail AttemptFailure.errorResponse =>
        let t := readLoopAux address count steps maxRetries remaining
        ⟨t.result, pre ++ t.delays, wire :: t.reads⟩
      | AttemptEvent.fail AttemptFailure.exnDecode =>
        if 0 < remaining then
          match hub_disconnect true with
          | none => ⟨ReadResult.deadlock, pre, [wire]⟩
          | some _ =>
            let t := readLoopAux address count steps maxRetries remaining
            ⟨t.result, pre ++ ((0.2 : ℚ) * (attempt + 1) :: t.delays),
              wire :: t.reads⟩
        else
          let t := readLoopAux address count steps maxRetries remaining
          ⟨t.result, pre ++ t.delays, wire :: t.reads⟩
      | AttemptEvent.fail AttemptFailure.exnOther =>
        if 0 < remaining then
          let t := readLoopAux address count steps maxRetries remaining
          ⟨t.result, pre ++ ((0.2 : ℚ) * (attempt + 1) :: t.delays),
            wire :: t.reads⟩
        else
          let t := readLoopAux address count steps maxRetries remaining
          ⟨t.result, pre ++ t.delays, wire :: t.reads⟩
    if s.socketOpen then
      body []
    else
      match hub_connect true with
      | none => ⟨ReadResult.deadlock, [], []⟩
      | some _ => body [(0.2 : ℚ)]

/-- `MidniteHub.read_holding_registers(address, count)`: `max_retries = 5`,
the lock acquired once around the whole loop. -/
def read_holding_registers (address : Nat) (count : Nat)
    (steps : Nat → AttemptStep) : ReadTrace :=
  readLoopAux address count steps 5 5

/-- Claim C2: the retry loop does NOT run to completion on the reconnect
path.  With the client socket closed at the first attempt, the nested
`self.connect()` re-acquires the already-held non-reentrant `self._lock` and
blocks forever, and no wire read, sleep, or return ever happens; likewise a
protocol-decode exception on a non-final attempt deadlocks in
`self.disconnect()`.  (Evaluates the embedded code at the failing inputs;
recorded as a code bug against the claim.) -/
theorem read_reconnect_deadlocks :
    read_holding_registers 4101 1
      (fun _ => ⟨false, AttemptEvent.fail AttemptFailure.errorResponse⟩)
      = ⟨ReadResult.deadlock, [], []⟩ ∧
    read_holding_registers 4115 1
      (fun _ => ⟨true, AttemptEvent.fail AttemptFailure.exnDecode⟩)
      = ⟨ReadResult.deadlock, [], [(4114, 1)]⟩ ∧
    ReadResult.deadlock ≠ ReadResult.sentinel := by
  refine ⟨by decide, by decide, by decide⟩

theorem readLoopAux_all_fail (address count : Nat) (steps : Nat → AttemptStep)
    (maxRetries : Nat)
    (hsock : ∀ i, (steps i).socketOpen = true)
    (hfail : ∀ i, ∃ f, (steps i).event = AttemptEvent.fail f)
    (hdec : ∀ i, i + 1 < maxRetries →
      (steps i).event ≠ AttemptEvent.fail AttemptFailure.exnDecode) :
    ∀ remaining, remaining ≤ maxRetries →
      (readLoopAux address count steps maxRetries remaining).result
          = ReadResult.sentinel ∧
      (readLoopAux address count steps maxRetries remaining).reads
          = List.replicate remaining ((address : Int) - 1, count) := by
  intro remaining
  induction remaining with
  | zero => intro hle; exact ⟨rfl, rfl⟩
  | succ r ih =>
    intro hle
    have hr : r ≤ maxRetries := Nat.le_of_succ_le hle
    obtain ⟨hres, hreads⟩ := ih hr
    obtain ⟨f, hf⟩ := hfail (maxRetries - (r + 1))
    rw [readLoopAux]
    rw [hsock (maxRetries - (r + 1))]
    cases f with
    | errorResponse =>
      simp only [if_pos rfl, hf, hres, hreads, List.replicate_succ]
      try exact ⟨rfl, rfl⟩
    | exnDecode =>
      have hlast : ¬ 0 < r := by
        intro hpos
        have harith : (maxRetries - (r + 1)) + 1 < maxRetries := by omega
        exact hdec (maxRetries - (r + 1)) harith hf
      simp only [if_pos rfl, hf, if_neg hlast, hres, hreads, List.replicate_succ]
      try exact ⟨rfl, rfl⟩
    | exnOther =>
      by_cases hpos : 0 < r
      · simp only [if_pos rfl, hf, if_pos hpos, hres, hreads, List.replicate_succ]
        try exact ⟨rfl, rfl⟩
      · simp only [if_pos rfl, hf, if_neg hpos, hres, hreads, List.replicate_succ]
        try exact ⟨rfl, rfl⟩

/-- Claim C4 (amended): for every address and count,
`read_holding_registers` reads the wire at the 0-indexed `address - 1`,
attempts at most 5 times, and — for every pattern of attempt failures drawn
from error responses and caught exceptions in which the socket stays open
and no protocol-decode exception occurs before the final attempt — returns
the failure sentinel (`None`) rather than raising after exhausting all 5
attempts.  (As originally stated the claim fails: a decode exception on a
non-final attempt makes the loop deadlock in `self.disconnect()` instead of
reaching the sentinel, see the counterexample.) -/
theorem read_retries_exhaust_to_sentinel (address count : Nat)
    (failures : Nat → AttemptFailure)
    (hdec : ∀ i, i < 4 → failures i ≠ AttemptFailure.exnDecode) :
    (read_holding_registers address count
        (fun i => ⟨true, AttemptEvent.fail (failures i)⟩)).result
        = ReadResult.sentinel ∧
    (read_holding_registers address count
        (fun i => ⟨true, AttemptEvent.fail (failures i)⟩)).reads
        = List.replicate 5 ((address : Int) - 1, count) := by
  refine readLoopAux_all_fail address count _ 5 (fun i => rfl)
    (fun i => ⟨failures i, rfl⟩) ?_ 5 (Nat.le_refl 5)
  intro i hi h
  have hlt : i < 4 := by omega
  have h2 : failures i = AttemptFailure.exnDecode := by simpa using h
  exact hdec i hlt h2

/-- Witness for C4 at the concrete pattern "five error responses in a row"
on the device-id register: five wire reads of address 4100, then the
sentinel. -/
theorem read_retries_exhaust_witness :
    (read_holding_registers 4101 1
        (fun _ => ⟨true, AttemptEvent.fail AttemptFailure.errorResponse⟩)).result
        = ReadResult.sentinel ∧
    (read_holding_registers 4101 1
        (fun _ => ⟨true, AttemptEvent.fail AttemptFailure.errorResponse⟩)).reads
        = List.replicate 5 ((4101 : Int) - 1, 1) :=
  read_retries_exhaust_to_sentinel 4101 1 (fun _ => AttemptFailure.errorResponse)
    (fun i hi h => by injection h)

/-- Counterexample to C4 as stated: a pattern of caught exceptions (all
protocol-decode errors) under which the call never returns the sentinel —
the first attempt's handler deadlocks re-acquiring the lock inside
`self.disconnect()`. -/
theorem read_decode_error_deadlocks :
    (read_holding_registers 4120 1
        (fun _ => ⟨true, AttemptEvent.fail AttemptFailure.exnDecode⟩)).result
        = ReadResult.deadlock ∧
    (read_holding_registers 4120 1
        (fun _ => ⟨true, AttemptEvent.fail AttemptFailure.exnDecode⟩)).result
        ≠ ReadResult.sentinel := by
  refine ⟨by decide, by decide⟩

/-- Failure pattern of C5's scenario with device error responses: attempts
1 and 2 fail with `result.isError()`, attempt 3 succeeds. -/
def steps_err_err_ok : Nat → AttemptStep := fun i =>
  if i < 2 then ⟨true, AttemptEvent.fail AttemptFailure.errorResponse⟩
  else ⟨true, AttemptEvent.success [7]⟩

/-- Counterexample to C5 as stated: a read that fails twice with device
error responses and succeeds on the third attempt performs NO backoff sleeps
at all — the `time.sleep(0.2 * (attempt + 1))` sits inside the `except`
block, which an error response never enters — contradicting the claimed
delays of 0.2 s and 0.4 s. -/
theorem error_response_no_backoff :
    (read_holding_registers 4101 1 steps_err_err_ok).result
        = ReadResult.ok [7] ∧
    (read_holding_registers 4101 1 steps_err_err_ok).delays = [] ∧
    ([] : List ℚ) ≠ [0.2, 0.4] := by
  refine ⟨by decide, by decide, by decide⟩

/-- A fail-fail-succeed pattern in which each of the two failures is either
a caught (non-decode) exception (`true`) or a device error response
(`false`). -/
def steps_two_fail (exn1 exn2 : Bool) : Nat → AttemptStep := fun i =>
  if i = 0 then
    ⟨true, AttemptEvent.fail
      (if exn1 then AttemptFailure.exnOther else AttemptFailure.errorResponse)⟩
  else if i = 1 then
    ⟨true, AttemptEvent.fail
      (if exn2 then AttemptFailure.exnOther else AttemptFailure.errorResponse)⟩
  else ⟨true, AttemptEvent.success [7]⟩

/-- Claim C5 (amended): the backoff delay of 0.2 s × attempt number is
performed only after a failed non-final attempt whose failure is a caught
exception (other than a protocol-decode error, which deadlocks in
`disconnect()` first); an attempt failing with an error response from the
device is retried immediately with no delay — the `time.sleep` sits inside
the `except` block.  For a read that fails twice and succeeds on the third
attempt, the delay list therefore holds 0.2 s for the first failure and
0.4 s for the second exactly when that failure was an exception: two
exception failures sleep [0.2, 0.4], two error responses sleep nothing. -/
theorem backoff_on_exception_only (exn1 exn2 : Bool) :
    (read_holding_registers 4101 1 (steps_two_fail exn1 exn2)).result
        = ReadResult.ok [7] ∧
    (read_holding_registers 4101 1 (steps_two_fail exn1 exn2)).delays
        = (if exn1 then [(0.2 : ℚ)] else []) ++ (if exn2 then [(0.4 : ℚ)] else []) ∧
    (read_holding_registers 4101 1 (steps_two_fail exn1 exn2)).reads
        = [(4100, 1), (4100, 1), (4100, 1)] := by
  cases exn1 <;> cases exn2 <;>
    refine ⟨?_, ?_, ?_⟩ <;>
    norm_num [read_holding_registers, readLoopAux, steps_two_fail,
      hub_connect, hub_disconnect]

/-! ## Poll cycle (`coordinator.py` `_async_update_data` / `_read_register_group`)

A poll cycle's device behaviour is an oracle `Nat → Option Nat`: what one
`hub.read_holding_registers(reg, 1)` call yields for each address during this
cycle (`none` = the hub's failure sentinel or an error response, in which
case the coordinator treats the register as failed). -/

/-- Insert into a sorted duplicate-free list, keeping it sorted and
duplicate-free: folding this over a list computes Python's
`sorted(set(registers))`. -/
def insertSortedDedup (x : Nat) : List Nat → List Nat
  | [] => [x]
  | y :: ys =>
    if x < y then x :: y :: ys
    else if x = y then y :: ys
    else y :: insertSortedDedup x ys

/-- Python `sorted(set(l))`. -/
def sortedSet (l : List Nat) : List Nat :=
  l.foldr insertSortedDedup []

/-- `MidniteSolarUpdateCoordinator._read_register_group`: empty group returns
`None`; otherwise each register of `sorted(set(registers))` is read once,
successes are collected in order into the group's mapping, failed registers
are only collected into the local `failed_registers` list (which is logged
and dropped); an empty result mapping returns `None`. -/
def read_register_group (oracle : Nat → Option Nat) (registers : List Nat) :
    Option (List (Nat × Nat)) :=
  if registers = [] then none
  else
    let sorted_regs := sortedSet registers
    let result_data :=
      sorted_regs.filterMap (fun reg => (oracle reg).map (fun v => (reg, v)))
    if result_data = [] then none else some result_data

/-- The group loop of `_async_update_data` (lines 214–227): groups whose read
returns a mapping are added to `data`; a group whose read returns `None` has
ALL its registers marked `str(reg) ↦ False` in `unavailable_entities`. -/
def update_groups (oracle : Nat → Option Nat) :
    List (String × List Nat) →
      List (String × List (Nat × Nat)) × List (String × Bool)
  | [] => ([], [])
  | (group_name, registers) :: rest =>
    let tail := update_groups oracle rest
    match read_register_group oracle registers with
    | some result => ((group_name, result) :: tail.1, tail.2)
    | none => (tail.1, registers.map (fun reg => (Nat.repr reg, false)) ++ tail.2)

/-- `MidniteSolarUpdateCoordinator._async_update_data`: the connection probe
reads `UNIT_ID` and falls back to `DISP_AVG_VBATT`; if both fail the cycle
raises `UpdateFailed` (modelled as `none` — the reconnect-and-retry branch
re-reads the same registers and, with a fixed per-cycle oracle, fails the
same way).  Otherwise every group of `REGISTER_GROUPS` is read and the
snapshot `{"data": ..., "availability": ...}` is published. -/
def async_update_data (oracle : Nat → Option Nat) : Option Snapshot :=
  if (oracle (regAddr "UNIT_ID")).isSome ∨ (oracle (regAddr "DISP_AVG_VBATT")).isSome
  then
    some ⟨(update_groups oracle REGISTER_GROUPS).1,
          (update_groups oracle REGISTER_GROUPS).2⟩
  else none

theorem mem_insertSortedDedup (x a : Nat) :
    ∀ l, a ∈ insertSortedDedup x l ↔ a = x ∨ a ∈ l := by
  intro l
  induction l with
  | nil => simp [insertSortedDedup]
  | cons y ys ih =>
    rw [insertSortedDedup]
    by_cases h1 : x < y
    · rw [if_pos h1]
      simp only [List.mem_cons]
      try tauto
    · rw [if_neg h1]
      by_cases h2 : x = y
      · subst h2
        rw [if_pos rfl]
        simp only [List.mem_cons]
        try tauto
      · rw [if_neg h2]
        simp only [List.mem_cons, ih]
        try tauto

theorem mem_sortedSet (a : Nat) : ∀ l, a ∈ sortedSet l ↔ a ∈ l := by
  intro l
  induction l with
  | nil => simp [sortedSet]
  | cons x xs ih =>
    show a ∈ insertSortedDedup x (sortedSet xs) ↔ _
    rw [mem_insertSortedDedup, ih, List.mem_cons]

theorem read_register_group_mem (oracle : Nat → Option Nat)
    (registers : List Nat) (res : List (Nat × Nat))
    (h : read_register_group oracle registers = some res) (reg v : Nat) :
    ((reg, v) ∈ res ↔ reg ∈ registers ∧ oracle reg = some v) := by
  by_cases hni : registers = []
  · rw [read_register_group, if_pos hni] at h
    exact absurd h (by simp)
  · rw [read_register_group, if_neg hni] at h
    dsimp only at h
    have hres : res = (sortedSet registers).filterMap
        (fun r => (oracle r).map (fun w => (r, w))) := by
      revert h
      split
      · intro h; exact absurd h (by simp)
      · intro h; injection h with h; exact h.symm
    subst hres
    rw [List.mem_filterMap]
    constructor
    · rintro ⟨a, ha, hval⟩
      rw [Option.map_eq_some'] at hval
      obtain ⟨w, hw, heq⟩ := hval
      obtain ⟨rfl, rfl⟩ := Prod.ext_iff.mp heq
      exact ⟨(mem_sortedSet a registers).mp ha, hw⟩
    · rintro ⟨hmem, hval⟩
      refine ⟨reg, (mem_sortedSet reg registers).mpr hmem, ?_⟩
      rw [hval]
      rfl

theorem update_groups_collects (oracle : Nat → Option Nat) :
    ∀ groups g registers res, (g, registers) ∈ groups →
      read_register_group oracle registers = some res →
      (g, res) ∈ (update_groups oracle groups).1 := by
  intro groups
  induction groups with
  | nil => intro g registers res h; exact absurd h (by simp)
  | cons p rest ih =>
    obtain ⟨g2, regs2⟩ := p
    intro g registers res hmem hread
    rw [List.mem_cons] at hmem
    rcases hmem with heq | hmem
    · obtain ⟨rfl, rfl⟩ : g2 = g ∧ regs2 = registers := by
        constructor
        · exact (congrArg Prod.fst heq).symm
        · exact (congrArg Prod.snd heq).symm
      rw [update_groups, hread]
      exact List.mem_cons_self _ _
    · rw [update_groups]
      cases hr : read_register_group oracle regs2 with
      | some result => exact List.mem_cons_of_mem _ (ih g registers res hmem hread)
      | none => exact ih g registers res hmem hread

theorem update_groups_marks_failed_group (oracle : Nat → Option Nat) :
    ∀ groups g registers, (g, registers) ∈ groups →
      read_register_group oracle registers = none →
      ∀ reg, reg ∈ registers →
        (Nat.repr reg, false) ∈ (update_groups oracle groups).2 := by
  intro groups
  induction groups with
  | nil => intro g registers h; exact absurd h (by simp)
  | cons p rest ih =>
    obtain ⟨g2, regs2⟩ := p
    intro g registers hmem hread reg hreg
    rw [List.mem_cons] at hmem
    rcases hmem with heq | hmem
    · obtain ⟨rfl, rfl⟩ : g2 = g ∧ regs2 = registers := by
        constructor
        · exact (congrArg Prod.fst heq).symm
        · exact (congrArg Prod.snd heq).symm
      rw [update_groups, hread]
      exact List.mem_append_left _ (List.mem_map_of_mem _ hreg)
    · rw [update_groups]
      cases hr : read_register_group oracle regs2 with
      | some result => exact ih g registers hmem hread reg hreg
      | none => exact List.mem_append_right _ (ih g registers hmem hread reg hreg)

/-- Claim C7 (amended): in each poll cycle, a group read collects exactly the
successfully read addresses of the group into that group's published mapping,
and a failure in one group does not prevent other groups from being read and
published; but an address that fails while some other address of its group
succeeds is only absent from the mapping — it is NOT recorded in the
snapshot's availability mapping.  The availability mapping receives a group's
addresses (as `str(reg) ↦ False`) only when the group's whole read returns
`None` (no address succeeded).  (The original claim — every failed address is
recorded in availability — fails, see the counterexample.) -/
theorem group_read_partition (oracle : Nat → Option Nat) :
    (∀ registers res reg v,
      read_register_group oracle registers = some res →
      ((reg, v) ∈ res ↔ reg ∈ registers ∧ oracle reg = some v)) ∧
    (∀ groups g registers res, (g, registers) ∈ groups →
      read_register_group oracle registers = some res →
      (g, res) ∈ (update_groups oracle groups).1) ∧
    (∀ groups g registers, (g, registers) ∈ groups →
      read_register_group oracle registers = none →
      ∀ reg, reg ∈ registers →
        (Nat.repr reg, false) ∈ (update_groups oracle groups).2) := by
  refine ⟨?_, update_groups_collects oracle, update_groups_marks_failed_group oracle⟩
  intro registers res reg v h
  exact read_register_group_mem oracle registers res h reg v

/-- Witness for C7: with register 4133 (FET temperature) failing and all
others reading 5, the temperatures group still publishes its two successes,
and the fully failing hypothetical group would mark its registers
unavailable. -/
theorem group_read_partition_witness :
    ("temperatures", [(4132, 5), (4134, 5)])
        ∈ (update_groups (fun r => if r = 4133 then none else some 5)
            REGISTER_GROUPS).1 := by
  have h := (group_read_partition (fun r => if r = 4133 then none else some 5)).2.1
  exact h REGISTER_GROUPS "temperatures" [4132, 4133, 4134] [(4132, 5), (4134, 5)]
    (by decide) (by decide)

/-- The device behaviour of C7's counterexample cycle: every register reads 0
except 4133 (FET temperature), which fails. -/
def oracle_c7 : Nat → Option Nat := fun r => if r = 4133 then none else some 0

/-- Counterexample to C7 as stated: in the cycle driven by `oracle_c7`, the
address 4133 fails its read while its group partners 4132/4134 succeed, yet
the published snapshot's availability mapping is EMPTY — the failed address
is not recorded with value `False` anywhere (`failed_registers` is only
logged inside `_read_register_group`). -/
theorem partial_group_failure_not_recorded :
    oracle_c7 4133 = none ∧
    Option.map (fun s => List.lookup "temperatures" s.data)
        (async_update_data oracle_c7) = some (some [(4132, 0), (4134, 0)]) ∧
    Option.map Snapshot.availability (async_update_data oracle_c7) = some [] := by
  refine ⟨by decide, by decide, by decide⟩

/-! ## AUX function selectors (`select.py`)

Register 4165 (`AUX_1_AND_2_FUNCTION`) packs the AUX 1 function in bits 0–2,
the AUX 2 function in bits 3–5 and the ON/OFF flag in bit 8.  Both selectors
read their current option from the snapshot's "aux_settings" group and,
on a selection, rebuild the combined register preserving the sibling
sub-field and the ON/OFF bit, write it, write the EEPROM-commit flag
(bit 2 of register 4160), and request a refresh. -/

/-- `const.py` `AUX1_FUNCTIONS`. -/
def AUX1_FUNCTIONS : List String :=
  ["Off", "Auto", "On", "HiAbs", "LoAbs", "WasteNot", "PVHiAbs", "PVLoAbs"]

/-- `const.py` `AUX2_FUNCTIONS`. -/
def AUX2_FUNCTIONS : List String :=
  ["Off", "Auto", "On", "HiAbs", "LoAbs", "WasteNot", "PWM", "PVHiAbs"]

/-- `Aux1FunctionSelector.current_option`. -/
def aux1_current_option (snap : Option Snapshot) : String :=
  match snap with
  | none => "Off"
  | some s =>
    match s.data.lookup "aux_settings" with
    | none => "Off"
    | some aux_settings =>
      if aux_settings = [] then "Off"
      else
        match aux_settings.lookup (regAddr "AUX_1_AND_2_FUNCTION") with
        | none => "Off"
        | some value =>
          let aux1_function_value := value &&& 7
          if h : aux1_function_value < AUX1_FUNCTIONS.length then
            AUX1_FUNCTIONS.get ⟨aux1_function_value, h⟩
          else "Unknown (" ++ Nat.repr aux1_function_value ++ ")"

/-- `Aux2FunctionSelector.current_option`. -/
def aux2_current_option (snap : Option Snapshot) : String :=
  match snap with
  | none => "Off"
  | some s =>
    match s.data.lookup "aux_settings" with
    | none => "Off"
    | some aux_settings =>
      if aux_settings = [] then "Off"
      else
        match aux_settings.lookup (regAddr "AUX_1_AND_2_FUNCTION") with
        | none => "Off"
        | some value =>
          let aux2_function_value := (value >>> 3) &&& 7
          if h : aux2_function_value < AUX2_FUNCTIONS.length then
            AUX2_FUNCTIONS.get ⟨aux2_function_value, h⟩
          else "Unknown (" ++ Nat.repr aux2_function_value ++ ")"

/-- The register value `Aux1FunctionSelector.async_select_option` writes back:
keeps the AUX 2 bits and the ON/OFF bit of `current_value`, installs
`function_index` in bits 0–2. -/
def aux1_new_value (current_value function_index : Nat) : Nat :=
  let aux2_function_bits := (current_value >>> 3) &&& 7
  let on_off_bit := (current_value >>> 8) &&& 1
  (function_index &&& 7) ||| ((aux2_function_bits &&& 7) <<< 3) |||
    ((on_off_bit &&& 1) <<< 8)

/-- The register value `Aux2FunctionSelector.async_select_option` writes back:
keeps the AUX 1 bits and the ON/OFF bit of `current_value`, installs
`function_index` in bits 3–5. -/
def aux2_new_value (current_value function_index : Nat) : Nat :=
  let aux1_function_bits := current_value &&& 7
  let on_off_bit := (current_value >>> 8) &&& 1
  (aux1_function_bits &&& 7) ||| ((function_index &&& 7) <<< 3) |||
    ((on_off_bit &&& 1) <<< 8)

/-- What an entity action did: the `(address, value)` writes issued through
the hub, in order, and whether `async_request_refresh` was reached. -/
structure SelectAction where
  writes : List (Nat × Nat)
  refreshRequested : Bool
deriving DecidableEq, Repr

/-- `Aux1FunctionSelector.async_select_option(option)`: unknown option names,
missing coordinator data, a missing/empty "aux_settings" group or a missing
combined register all abandon the write. -/
def aux1_select_option (snap : Option Snapshot) (option : String) : SelectAction :=
  match AUX1_FUNCTIONS.findIdx? (fun s => s == option) with
  | none => ⟨[], false⟩
  | some function_index =>
    match snap with
    | none => ⟨[], false⟩
    | some s =>
      match s.data.lookup "aux_settings" with
      | none => ⟨[], false⟩
      | some aux_settings =>
        if aux_settings = [] then ⟨[], false⟩
        else
          match aux_settings.lookup (regAddr "AUX_1_AND_2_FUNCTION") with
          | none => ⟨[], false⟩
          | some current_value =>
            ⟨[(regAddr "AUX_1_AND_2_FUNCTION",
                aux1_new_value current_value function_index),
              (regAddr "FORCE_FLAG_BITS", 1 <<< 2)], true⟩

/-- `Aux2FunctionSelector.async_select_option(option)`. -/
def aux2_select_option (snap : Option Snapshot) (option : String) : SelectAction :=
  match AUX2_FUNCTIONS.findIdx? (fun s => s == option) with
  | none => ⟨[], false⟩
  | some function_index =>
    match snap with
    | none => ⟨[], false⟩
    | some s =>
      match s.data.lookup "aux_settings" with
      | none => ⟨[], false⟩
      | some aux_settings =>
        if aux_settings = [] then ⟨[], false⟩
        else
          match aux_settings.lookup (regAddr "AUX_1_AND_2_FUNCTION") with
          | none => ⟨[], false⟩
          | some current_value =>
            ⟨[(regAddr "AUX_1_AND_2_FUNCTION",
                aux2_new_value current_value function_index),
              (regAddr "FORCE_FLAG_BITS", 1 <<< 2)], true⟩

theorem and_seven_eq_mod (x : Nat) : x &&& 7 = x % 8 :=
  Nat.and_pow_two_sub_one_eq_mod x 3

theorem and_one_eq_mod (x : Nat) : x &&& 1 = x % 2 :=
  Nat.and_pow_two_sub_one_eq_mod x 1

/-- Closed arithmetic form of `aux2_new_value`. -/
theorem aux2_new_value_eq (current_value function_index : Nat) :
    aux2_new_value current_value function_index
      = current_value % 8 + function_index % 8 * 8 + current_value / 256 % 2 * 256 := by
  unfold aux2_new_value
  simp only [and_seven_eq_mod, and_one_eq_mod, Nat.shiftLeft_eq,
    Nat.shiftRight_eq_div_pow]
  rw [show (2:ℕ) ^ 3 = 8 from rfl, show (2:ℕ) ^ 8 = 256 from rfl,
    show current_value % 8 % 8 = current_value % 8 from by omega,
    show current_value / 256 % 2 % 2 = current_value / 256 % 2 from by omega]
  have h1 : current_value % 8 ||| function_index % 8 * 8
      = function_index % 8 * 8 + current_value % 8 := by
    rw [Nat.or_comm]
    have h := Nat.mul_add_lt_is_or (i := 3) (b := current_value % 8)
      (a := function_index % 8) (by omega)
    have h2 : 8 * (function_index % 8) + current_value % 8
        = 8 * (function_index % 8) ||| current_value % 8 := h
    rw [Nat.mul_comm 8 (function_index % 8)] at h2
    exact h2.symm
  have h3 : (function_index % 8 * 8 + current_value % 8) ||| current_value / 256 % 2 * 256
      = current_value / 256 % 2 * 256 + (function_index % 8 * 8 + current_value % 8) := by
    rw [Nat.or_comm]
    have h := Nat.mul_add_lt_is_or (i := 8)
      (b := function_index % 8 * 8 + current_value % 8)
      (a := current_value / 256 % 2) (by omega)
    have h4 : 256 * (current_value / 256 % 2) + (function_index % 8 * 8 + current_value % 8)
        = 256 * (current_value / 256 % 2) ||| (function_index % 8 * 8 + current_value % 8) := h
    rw [Nat.mul_comm 256 (current_value / 256 % 2)] at h4
    exact h4.symm
  rw [h1, h3]
  omega

/-- Claim C6 (amended): for every current combined AUX register value and
every selected AUX 2 function index below 8, the composite write sends back
`aux2_new_value current_value idx`, whose AUX 1 sub-field (bits 0–2) and
ON/OFF bit (bit 8) equal their values in the current register and whose AUX 2
sub-field (bits 3–5) is the selected index; and whenever the snapshot's
"aux_settings" group holds the combined register, selecting the option of
index `idx` issues exactly the combined-register write followed by the
EEPROM-commit flag write (value 4 to register 4160).  In the code's bit
layout the spec scenario reads: starting from 0b100000001 (aux1 = 1,
aux2 = 0, on/off = 1), writing AUX 2 index 3 yields 0b100011001 = 281.  (The
claim's own literals 0b000100001 → 0b011100001 do not match the code, see
the counterexample.) -/
theorem aux2_write_preserves_fields (current_value idx : Nat) (hidx : idx < 8) :
    (aux2_new_value current_value idx) &&& 7 = current_value &&& 7 ∧
    ((aux2_new_value current_value idx) >>> 8) &&& 1
        = ((current_value >>> 8) &&& 1) ∧
    ((aux2_new_value current_value idx) >>> 3) &&& 7 = idx ∧
    (∀ s aux_settings, s.data.lookup "aux_settings" = some aux_settings →
      aux_settings ≠ [] →
      aux_settings.lookup 4165 = some current_value →
      aux2_select_option (some s) (AUX2_FUNCTIONS.getD idx "")
        = ⟨[(4165, aux2_new_value current_value idx), (4160, 4)], true⟩) ∧
    aux2_new_value 257 3 = 281 := by
  have heq := aux2_new_value_eq current_value idx
  refine ⟨?_, ?_, ?_, ?_, by decide⟩
  · rw [heq, and_seven_eq_mod, and_seven_eq_mod]
    omega
  · rw [heq, Nat.shiftRight_eq_div_pow, Nat.shiftRight_eq_div_pow,
      and_one_eq_mod, and_one_eq_mod, show (2:ℕ) ^ 8 = 256 from rfl]
    omega
  · rw [heq, Nat.shiftRight_eq_div_pow, and_seven_eq_mod,
      show (2:ℕ) ^ 3 = 8 from rfl]
    omega
  · intro s aux_settings hl hne hcur
    have hfind : AUX2_FUNCTIONS.findIdx? (fun x => x == AUX2_FUNCTIONS.getD idx "")
        = some idx := by
      interval_cases idx <;> decide
    simp only [aux2_select_option, hfind, hl, if_neg hne,
      show regAddr "AUX_1_AND_2_FUNCTION" = 4165 from rfl, hcur]
    rfl

/-- Witness for C6 at the corrected concrete input: current combined value
0b100000001 = 257 (aux1 = 1, aux2 = 0, on/off = 1), selecting "HiAbs"
(AUX 2 index 3) writes 0b100011001 = 281 and then the EEPROM-commit flag. -/
theorem aux2_write_preserves_witness :
    aux2_select_option (some ⟨[("aux_settings", [(4165, 257)])], []⟩) "HiAbs"
      = ⟨[(4165, 281), (4160, 4)], true⟩ := by
  have h := aux2_write_preserves_fields 257 3 (by norm_num)
  have h4 := h.2.2.2.1 ⟨[("aux_settings", [(4165, 257)])], []⟩ [(4165, 257)]
    rfl (by simp) rfl
  rw [h.2.2.2.2] at h4
  exact h4

/-- Counterexample to C6 as stated: from the claim's combined value
0b000100001 = 33, selecting AUX 2 index 3 ("HiAbs") makes the code write
0b000011001 = 25 to register 4165, not the claimed 0b011100001 = 225 (the
claim's literals place the sub-fields at different bit positions than the
code does). -/
theorem aux2_write_value_counterexample :
    aux2_select_option (some ⟨[("aux_settings", [(4165, 33)])], []⟩) "HiAbs"
      = ⟨[(4165, 25), (4160, 4)], true⟩ ∧
    (25 : Nat) ≠ 225 := by
  refine ⟨by decide, by decide⟩

/-- Keys published under the snapshot's data come from the group table. -/
theorem update_groups_keys (oracle : Nat → Option Nat) :
    ∀ groups g res, (g, res) ∈ (update_groups oracle groups).1 →
      g ∈ groups.map Prod.fst := by
  intro groups
  induction groups with
  | nil => intro g res h; exact absurd h (by simp [update_groups])
  | cons p rest ih =>
    obtain ⟨g2, regs2⟩ := p
    intro g res h
    rw [update_groups] at h
    revert h
    cases hr : read_register_group oracle regs2 with
    | some result =>
      intro h
      rw [List.mem_cons] at h
      rcases h with heq | h
      · have : g = g2 := congrArg Prod.fst heq
        rw [List.map_cons, this]
        exact List.mem_cons_self _ _
      · exact List.mem_cons_of_mem _ (ih g res h)
    | none =>
      intro h
      exact List.mem_cons_of_mem _ (ih g res h)

/-- Claim C10: every snapshot the coordinator publishes has data only for
group names of the coordinator's static `REGISTER_GROUPS`, which has no
"aux_settings" group; hence in every reachable coordinator state the AUX 1
and AUX 2 selectors report the constant "Off" and their
`async_select_option` issues no device write for any option. -/
theorem aux_selectors_inert (oracle : Nat → Option Nat) (snap : Snapshot)
    (hsnap : async_update_data oracle = some snap) :
    "aux_settings" ∉ REGISTER_GROUPS.map Prod.fst ∧
    snap.data.lookup "aux_settings" = none ∧
    aux1_current_option (some snap) = "Off" ∧
    aux2_current_option (some snap) = "Off" ∧
    (∀ option, aux1_select_option (some snap) option = ⟨[], false⟩ ∧
      aux2_select_option (some snap) option = ⟨[], false⟩) := by
  have hdata : snap.data = (update_groups oracle REGISTER_GROUPS).1 := by
    rw [async_update_data] at hsnap
    revert hsnap
    split
    · intro hsnap
      injection hsnap with hsnap
      rw [← hsnap]
    · intro hsnap
      exact absurd hsnap (by simp)
  have hnames : "aux_settings" ∉ REGISTER_GROUPS.map Prod.fst := by decide
  have hlookup : snap.data.lookup "aux_settings" = none := by
    cases hl : snap.data.lookup "aux_settings" with
    | none => rfl
    | some aux =>
      have hmem := lookup_mem hl
      rw [hdata] at hmem
      have := update_groups_keys oracle REGISTER_GROUPS "aux_settings" aux hmem
      exact absurd this hnames
  refine ⟨hnames, hlookup, ?_, ?_, ?_⟩
  · rw [aux1_current_option, hlookup]
  · rw [aux2_current_option, hlookup]
  · intro option
    constructor
    · rw [aux1_select_option]
      cases List.findIdx? (fun s => s == option) AUX1_FUNCTIONS with
      | none => rfl
      | some i => simp only [hlookup]
    · rw [aux2_select_option]
      cases List.findIdx? (fun s => s == option) AUX2_FUNCTIONS with
      | none => rfl
      | some i => simp only [hlookup]

/-- Witness for C10 at the concrete cycle in which every register reads 0:
the published snapshot exists and both AUX selectors report "Off" and write
nothing when asked to select "On". -/
theorem aux_selectors_inert_witness :
    aux1_current_option (async_update_data (fun _ => some 0)) = "Off" ∧
    aux2_current_option (async_update_data (fun _ => some 0)) = "Off" ∧
    aux1_select_option (async_update_data (fun _ => some 0)) "On" = ⟨[], false⟩ ∧
    aux2_select_option (async_update_data (fun _ => some 0)) "On" = ⟨[], false⟩ := by
  rcases hsnap : async_update_data (fun _ => some 0) with _ | snap
  · exact absurd hsnap (by decide)
  · have h := aux_selectors_inert (fun _ => some 0) snap hsnap
    exact ⟨h.2.2.1, h.2.2.2.1, (h.2.2.2.2 "On").1, (h.2.2.2.2 "On").2⟩

/-! ## Current sensors (`sensor.py`)

Python floats are modelled as exact rationals; `value / 10.0` becomes
`(value : ℚ) / 10`. -/

/-- `BatteryCurrentSensor.native_value` (register 4117 of the "status"
group).  The source divides by 10 FIRST and only then compares with 32767:
`current_value = value / 10.0; if current_value > 32767: current_value -=
65536`, followed by the ±200 A validity check. -/
def battery_current_native (snap : Option Snapshot) : Option ℚ :=
  match snap with
  | none => none
  | some s =>
    match s.data.lookup "status" with
    | none => none
    | some status_data =>
      if status_data = [] then none
      else
        match status_data.lookup (regAddr "IBATT_DISPLAY_S") with
        | none => none
        | some value =>
          let current_value : ℚ := (value : ℚ) / 10
          let current_value :=
            if current_value > 32767 then current_value - 65536 else current_value
          if |current_value| > 200 then none else some current_value

/-- `PVInputCurrentSensor.native_value` (register 4121, ±100 A check); same
divide-before-sign-check order as the battery current sensor. -/
def pv_input_current_native (snap : Option Snapshot) : Option ℚ :=
  match snap with
  | none => none
  | some s =>
    match s.data.lookup "status" with
    | none => none
    | some status_data =>
      if status_data = [] then none
      else
        match status_data.lookup (regAddr "PV_INPUT_CURRENT") with
        | none => none
        | some value =>
          let current_value : ℚ := (value : ℚ) / 10
          let current_value :=
            if current_value > 32767 then current_value - 65536 else current_value
          if |current_value| > 100 then none else some current_value

/-- Claim C3: sign extension never happens in the current sensors.  For the
raw battery-current value 65535 (two's-complement −1, i.e. −0.1 A) the claim
demands the reading (65535 − 65536)/10 = −0.1 A, which passes the ±200 A
check; but the code computes 65535/10 = 6553.5, never reaches the
subtract-65536 branch (6553.5 ≤ 32767), fails the ±200 A check and returns
`None`.  The PV input current sensor behaves the same way at its ±100 A
check.  (Evaluates the embedded code at the failing input; recorded as a
code bug against the claim.) -/
theorem battery_current_sign_extension_dead :
    battery_current_native (some ⟨[("status", [(4117, 65535)])], []⟩) = none ∧
    pv_input_current_native (some ⟨[("status", [(4121, 65535)])], []⟩) = none ∧
    ((65535 : ℚ) - 65536) / 10 = -1 / 10 ∧
    |((65535 : ℚ) - 65536) / 10| ≤ 200 := by
  refine ⟨?_, ?_, by norm_num, by rw [abs_le]; constructor <;> norm_num⟩
  · norm_num [battery_current_native,
      show List.lookup "status" [("status", [(4117, 65535)])]
        = some [(4117, 65535)] from rfl,
      show regAddr "IBATT_DISPLAY_S" = 4117 from rfl,
      show List.lookup 4117 [(4117, 65535)] = some (65535 : Nat) from rfl]
    intro h
    rw [abs_le] at h
    norm_num at h
  · norm_num [pv_input_current_native,
      show List.lookup "status" [("status", [(4121, 65535)])]
        = some [(4121, 65535)] from rfl,
      show regAddr "PV_INPUT_CURRENT" = 4121 from rfl,
      show List.lookup 4121 [(4121, 65535)] = some (65535 : Nat) from rfl]
    intro h
    rw [abs_le] at h
    norm_num at h

/-! ## Temperature validation (`sensor.py` `TemperatureSensorBase`) -/

/-- The per-entity mutable state `_last_temp` / `_last_time` /
`_recent_readings`. -/
structure TempState where
  last_temp : Option ℚ
  last_time : Option ℚ
  recent_readings : List ℚ
deriving DecidableEq, Repr

/-- The raw-to-Celsius conversion at the top of `_validate_temperature`:
`temp_value = value / 10.0`, replaced by `(value - 65536) / 10.0` when the
raw value exceeds 32767 (here the RAW value is compared, unlike the current
sensors). -/
def decode_temp (value : Nat) : ℚ :=
  if value > 32767 then ((value : ℚ) - 65536) / 10 else (value : ℚ) / 10

/-- The accept path of `_validate_temperature`: append to
`_recent_readings` (keeping at most the last 20), update `_last_temp` and
`_last_time`, return the value. -/
def accept_reading (st : TempState) (temp_value current_time : ℚ) :
    Option ℚ × TempState :=
  let recent := st.recent_readings ++ [temp_value]
  let recent := if 20 < recent.length then recent.drop 1 else recent
  (some temp_value, ⟨some temp_value, some current_time, recent⟩)

/-- `TemperatureSensorBase._validate_temperature(value)` at wall-clock time
`current_time`: range check −50 °C … 150 °C, then rate-of-change check
against the last ACCEPTED reading (reject above 2 °C/s); rejected readings
leave the state unchanged. -/
def validate_temperature (st : TempState) (value : Nat) (current_time : ℚ) :
    Option ℚ × TempState :=
  let temp_value := decode_temp value
  if temp_value < -50 ∨ temp_value > 150 then (none, st)
  else
    match st.last_temp, st.last_time with
    | some last_temp, some last_time =>
      let time_diff := current_time - last_time
      if 0 < time_diff then
        if 2 < |temp_value - last_temp| / time_diff then (none, st)
        else accept_reading st temp_value current_time
      else accept_reading st temp_value current_time
    | some _, none => accept_reading st temp_value current_time
    | none, _ => accept_reading st temp_value current_time

/-- The state after a 25.0 °C reading was accepted at time t = 0. -/
def temp_state_25 : TempState := ⟨some 25, some 0, [25]⟩

/-- Claim C8: with the last accepted reading 25.0 °C at t = 0, the in-range
reading 40.0 °C (raw 400) is rejected at t = 0.1 s (implied rate 150 °C/s
exceeds the 2 °C/s threshold) and the sensor reports unknown, while the same
reading at t = 10 s (1.5 °C/s) is accepted and returned; and any reading
outside −50 °C … 150 °C is rejected in every state (witnessed at raw value
2000, i.e. 200.0 °C). -/
theorem temperature_validation_rate :
    (validate_temperature temp_state_25 400 (1 / 10)).1 = none ∧
    (validate_temperature temp_state_25 400 10).1 = some 40 ∧
    (∀ st value current_time,
      (decode_temp value < -50 ∨ decode_temp value > 150) →
      (validate_temperature st value current_time).1 = none) ∧
    (validate_temperature ⟨none, none, []⟩ 2000 0).1 = none := by
  refine ⟨?_, ?_, ?_, ?_⟩
  · norm_num [validate_temperature, decode_temp, temp_state_25]
  · norm_num [validate_temperature, decode_temp, temp_state_25, accept_reading]
  · intro st value current_time h
    rw [validate_temperature, if_pos h]
  · norm_num [validate_temperature, decode_temp]

/-! ## Host-name text entity (`text.py` `MidniteSolarText._async_set_value`) -/

/-- `value[:8].ljust(8)`: truncate to 8 characters and pad on the right with
spaces. -/
def padded_name (value : String) : String :=
  let s := value.take 8
  s ++ String.mk (List.replicate (8 - s.length) ' ')

/-- One name register's value: two consecutive ASCII characters, the first
in the low byte, the second in the high byte
(`ord(char1) | (ord(char2) << 8)`). -/
def name_register_value (char1 char2 : Char) : Nat :=
  char1.toNat ||| (char2.toNat <<< 8)

/-- The `for i in range(4)` write loop: write register `UNIT_NAME_i` with
characters 2i and 2i+1; a failed write (per the oracle `ok`, indexed by
write position) aborts the remaining writes. -/
def name_write_loop (chars : List Char) (ok : Nat → Bool) :
    Nat → Nat → List (Nat × Nat) × Bool
  | 0, _ => ([], true)
  | fuel + 1, i =>
    let w := (regAddr ("UNIT_NAME_" ++ Nat.repr i),
      name_register_value (chars.getD (2 * i) ' ') (chars.getD (2 * i + 1) ' '))
    if ok i then
      let rest := name_write_loop chars ok fuel (i + 1)
      (w :: rest.1, rest.2)
    else ([w], false)

/-- `MidniteSolarText._async_set_value(value)`: pad the name, write the four
character-pair registers, then write the EEPROM-commit flag
(`1 << 2` to `FORCE_FLAG_BITS`), then request a refresh.  Returns the writes
issued in order and whether the refresh was reached. -/
def text_set_value (value : String) (ok : Nat → Bool) :
    List (Nat × Nat) × Bool :=
  let padded_value := padded_name value
  let chars := padded_value.toList
  let r := name_write_loop chars ok 4 0
  if r.2 then
    let w := (regAddr "FORCE_FLAG_BITS", 1 <<< 2)
    if ok 4 then (r.1 ++ [w], true) else (r.1 ++ [w], false)
  else (r.1, false)

/-- Claim C9: setting the host name to "Solar1" pads to "Solar1  " (8
characters) and, with all writes succeeding, issues exactly the 4 register
writes 4210↦28499 ('S','o'), 4211↦24940 ('l','a'), 4212↦12658 ('r','1'),
4213↦8224 (' ',' ') in order — first character in the low byte — followed by
exactly one write of the EEPROM-commit flag bit (bit 2, value 4) to the
force-flag register 4160, and then the refresh request. -/
theorem host_name_write_sequence :
    padded_name "Solar1" = "Solar1  " ∧
    text_set_value "Solar1" (fun _ => true)
      = ([(4210, 28499), (4211, 24940), (4212, 12658), (4213, 8224), (4160, 4)],
        true) := by
  refine ⟨by decide, by decide⟩

end Midnite
